import Mathlib

/-! Shallow embedding of src/main.js (kylemath/shooterFocus), the per-frame game
logic of a browser 3D shooting-gallery prototype built on the three.js scene
graph.  Only the state-relevant game logic is embedded; pure rendering
operations (meshes, materials, shadows, canvas textures, animation mixer,
DOM updates, camera projection) have no game-state effect and are noted in
the doc comments of the definitions that skip them.

Conventions of the embedding:
 - JS numbers are embedded as rationals.  Library math functions whose exact
   real values never matter to the verified properties (Math.sin, Math.cos,
   Math.sqrt, Math.random, and the three.js raycaster) are oracle parameters
   collected in an `Env` structure, so every theorem holds for all
   implementations of those library routines.
 - Strict comparisons of Euclidean lengths against nonnegative constants are
   embedded as the equivalent comparisons of squared lengths
   (`length() > c` becomes `c^2 < normSq`, `distanceTo p < r` becomes
   `distSq ... < r^2`), which is exact and keeps everything computable.
 - Mutation is embedded as explicit state passing; the JS arrays `targets`,
   `paintballs`, `splatters` become Lean lists (push = append at the back,
   shift = drop at the front, splice(i,1) = eraseIdx i).
-/

namespace ShooterFocus

/-- A three.js Vector3 with rational components. -/
structure Vec3 where
  x : ℚ
  y : ℚ
  z : ℚ
deriving DecidableEq, Repr, Inhabited

/-- Componentwise vector addition (Vector3.add). -/
def Vec3.add (a b : Vec3) : Vec3 := ⟨a.x + b.x, a.y + b.y, a.z + b.z⟩

instance : Add Vec3 := ⟨Vec3.add⟩

/-- Scalar multiplication (Vector3.multiplyScalar). -/
def Vec3.smul (c : ℚ) (v : Vec3) : Vec3 := ⟨c * v.x, c * v.y, c * v.z⟩

instance : SMul ℚ Vec3 := ⟨Vec3.smul⟩

/-- Componentwise subtraction (Vector3.sub). -/
def Vec3.sub (a b : Vec3) : Vec3 := ⟨a.x - b.x, a.y - b.y, a.z - b.z⟩

instance : Sub Vec3 := ⟨Vec3.sub⟩

/-- Squared Euclidean norm: `length()` squared, i.e. x*x + y*y + z*z. -/
def normSq (v : Vec3) : ℚ := v.x * v.x + v.y * v.y + v.z * v.z

/-- Squared distance between two points: `a.distanceTo(b)` squared. -/
def distSq (a b : Vec3) : ℚ := normSq (a - b)

/-- The IEEE-double constant Math.PI, embedded as its decimal literal. -/
def mathPI : ℚ := 3.141592653589793

/-- A raycast intersection record: the fields of a three.js raycaster hit
that `addDecal` consumes (`hit.point`, `hit.face.normal`, and the identity
of `hit.object` among the meshes of the scene). -/
structure Hit where
  point : Vec3
  normal : Vec3
  objId : ℕ
deriving DecidableEq, Repr, Inhabited

/-- The library functions the game calls, as oracle parameters:
`sinF` embeds Math.sin, `cosF` embeds Math.cos, `sqrtF` embeds Math.sqrt,
`rng n` embeds the n-th successive result of Math.random(), and
`intersect oldPos newPos` embeds
`raycaster.intersectObjects([...buildingMeshes, ground], true)` for the ray
set at origin `oldPos` with direction `velocity.normalize()` and
`raycaster.far = oldPos.distanceTo(newPos)` — that ray covers exactly the
segment from `oldPos` to `newPos`; the hit list is sorted nearest-first by
the library contract of intersectObjects. -/
structure Env where
  sinF : ℚ → ℚ
  cosF : ℚ → ℚ
  sqrtF : ℚ → ℚ
  rng : ℕ → ℚ
  intersect : Vec3 → Vec3 → List Hit

/-- Keyboard state relevant to the movement code (`keys` object). -/
structure Keys where
  keyW : Bool
  keyA : Bool
  keyS : Bool
  keyD : Bool
  space : Bool
deriving DecidableEq, Repr, Inhabited

/-- The `player` object: mesh position, velocity, onGround flag, yaw and
pitch.  The animation fields (mixer, animations, currentAction, gun,
recoil) drive rendering only and are omitted. -/
structure Player where
  pos : Vec3
  vel : Vec3
  onGround : Bool
  yaw : ℚ
  pitch : ℚ
deriving DecidableEq, Repr, Inhabited

/-- playerHeight = 1.7 (src/main.js line 234). -/
def playerHeight : ℚ := 17 / 10

/-- moveSpeed = 10 (line 796). -/
def moveSpeed : ℚ := 10

/-- gravity = -30 (line 847). -/
def gravity : ℚ := -30

/-- The jump impulse: player.velocity.y = 12 (line 842). -/
def jumpSpeed : ℚ := 12

/-- The WASD section of `update` (lines 795-838): the input vector is
normalized (`sqrtF` supplies the library square root) and rotated by the
player's yaw, setting the horizontal velocity; with no keys held the
horizontal velocity is zeroed.  The animation-action switching in the same
lines is rendering-only and omitted. -/
def horizontalStep (env : Env) (k : Keys) (p : Player) : Player :=
  let mz : ℚ := (if k.keyS then 1 else 0) - (if k.keyW then 1 else 0)
  let mx : ℚ := (if k.keyD then 1 else 0) - (if k.keyA then 1 else 0)
  if 0 < mx * mx + mz * mz then
    let len := env.sqrtF (mx * mx + mz * mz)
    let nx := mx / len
    let nz := mz / len
    let s := env.sinF p.yaw
    let c := env.cosF p.yaw
    { p with vel := ⟨(nx * c - nz * s) * moveSpeed, p.vel.y, (nx * s + nz * c) * moveSpeed⟩ }
  else
    { p with vel := ⟨0, p.vel.y, 0⟩ }

/-- The jump section of `update` (lines 841-844): Space while onGround sets
the vertical velocity to 12 and clears onGround. -/
def jumpStep (k : Keys) (p : Player) : Player :=
  if k.space && p.onGround then
    { p with vel := ⟨p.vel.x, jumpSpeed, p.vel.z⟩, onGround := false }
  else p

/-- The movement part of `update` (lines 795-862): WASD sets the horizontal
velocity, Space jumps when onGround, gravity is added to the vertical
velocity, the position is integrated by velocity * delta, and finally the
position is clamped to the ground plane minY = 0 — the only collision
surface: no building, stair or bridge mesh is consulted here. -/
def movementStep (env : Env) (k : Keys) (delta : ℚ) (p : Player) : Player :=
  let p2 := jumpStep k (horizontalStep env k p)
  let p3 := { p2 with vel := ⟨p2.vel.x, p2.vel.y + gravity * delta, p2.vel.z⟩ }
  let pos : Vec3 := ⟨p3.pos.x + p3.vel.x * delta, p3.pos.y + p3.vel.y * delta,
                     p3.pos.z + p3.vel.z * delta⟩
  if pos.y < 0 then
    { p3 with pos := ⟨pos.x, 0, pos.z⟩, vel := ⟨p3.vel.x, 0, p3.vel.z⟩, onGround := true }
  else
    { p3 with pos := pos }

/-- A floating ring target (the record returned by `createTarget`,
lines 482-488): mesh position, drift velocity, hitRadius, score and
oscillation phase.  The ring meshes, materials and the pulsing
emissive-intensity effect are rendering-only and omitted. -/
structure Target where
  pos : Vec3
  vel : Vec3
  hitRadius : ℚ
  score : ℚ
  oscillation : ℚ
deriving DecidableEq, Repr, Inhabited

/-- MAX_TARGETS = 30 (line 420). -/
def MAX_TARGETS : ℕ := 30

/-- `createTarget` (lines 422-489): a fresh target at a random position in
the air with a random drift velocity, hitRadius 0.8, score 10 and a random
oscillation phase.  `k` is the index of the first Math.random() result the
call consumes; the calls that only build ring meshes and materials consume
no randomness.  The successive randoms drawn are: angle, distance, y, the
three drift components, and the oscillation phase (7 in total). -/
def createTarget (env : Env) (k : ℕ) : Target :=
  let angle := env.rng k * mathPI * 2
  let distance := 10 + env.rng (k + 1) * 30
  let x := env.cosF angle * distance
  let z := env.sinF angle * distance
  let y := 3 + env.rng (k + 2) * 15
  { pos := ⟨x, y, z⟩
    vel := ⟨(env.rng (k + 3) - 1/2) * 2, (env.rng (k + 4) - 1/2) * 1, (env.rng (k + 5) - 1/2) * 2⟩
    hitRadius := 4/5
    score := 10
    oscillation := env.rng (k + 6) * mathPI * 2 }

/-- The initial target population (lines 491-494): MAX_TARGETS calls of
createTarget, each consuming 7 randoms. -/
def initTargets (env : Env) : List Target :=
  (List.range MAX_TARGETS).map (fun i => createTarget env (7 * i))

/-- One entry of the `paintballs` array: mesh position, velocity, color
(r,g,b as a Vec3) and remaining life in seconds.  The sphere mesh and its
material are rendering-only and omitted. -/
structure Paintball where
  pos : Vec3
  vel : Vec3
  color : Vec3
  life : ℚ
deriving DecidableEq, Repr, Inhabited

/-- `createExplosion` (lines 497-520): 20 particles at the hit position,
each with a random velocity whose components are (random - 0.5) * 10, the
given color, and life 0.5; they are pushed onto the `paintballs` array.
`k` indexes the first of the 60 randoms consumed (3 per particle). -/
def createExplosion (env : Env) (k : ℕ) (position : Vec3) (color : Vec3) : List Paintball :=
  (List.range 20).map (fun i =>
    { pos := position
      vel := ⟨(env.rng (k + 3 * i) - 1/2) * 10, (env.rng (k + 3 * i + 1) - 1/2) * 10,
              (env.rng (k + 3 * i + 2) - 1/2) * 10⟩
      color := color
      life := 1/2 })

/-- One entry of the `splatters` array: the decal mesh data that `addDecal`
derives from the raycast hit — projection point, surface normal, the mesh
the decal is projected on, the random size 1.0 + random * 1.5, the random
z-rotation, and the paint color.  The procedural canvas blob texture and
the decal material are rendering-only and omitted. -/
structure Splatter where
  point : Vec3
  normal : Vec3
  objId : ℕ
  size : ℚ
  rotZ : ℚ
  color : Vec3
deriving DecidableEq, Repr, Inhabited

/-- The splatter mesh `addDecal` builds before trimming (lines 643-692):
size = 1.0 + r1 * 1.5, orientation.z = r2 * 2 * Math.PI. -/
def newSplatter (hit : Hit) (color : Vec3) (r1 r2 : ℚ) : Splatter :=
  { point := hit.point
    normal := hit.normal
    objId := hit.objId
    size := 1 + r1 * (3/2)
    rotZ := r2 * 2 * mathPI
    color := color }

/-- `addDecal` (lines 642-701): push the new splatter mesh, then if the
list length exceeds 200, shift off the oldest splatter (its scene removal
and geometry/material disposal are rendering-only).  `r1` and `r2` are the
two state-relevant randoms (size and z-rotation); the randoms drawn while
painting the canvas texture affect pixels only. -/
def addDecal (hit : Hit) (color : Vec3) (r1 r2 : ℚ) (splatters : List Splatter) :
    List Splatter :=
  let s := splatters ++ [newSplatter hit color r1 r2]
  if 200 < s.length then s.drop 1 else s

/-- `shootPaintball` (lines 710-747): the paintball pushed by one shot.
`camDir` embeds the normalized camera world direction
(camera.getWorldDirection).  The start position is the player position
plus (0, playerHeight * 0.7, 0) plus the direction scaled by 1.0; the
velocity is the direction scaled by 40; life is 3 seconds.  The unused
`right`/`gunOffset` vectors, the sphere mesh, and the recoil flag set for
the gun animation are omitted. -/
def shootPaintball (playerPos : Vec3) (camDir : Vec3) (color : Vec3) : Paintball :=
  { pos := playerPos + (⟨0, playerHeight * (7/10), 0⟩ : Vec3) + (1 : ℚ) • camDir
    vel := (40 : ℚ) • camDir
    color := color
    life := 3 }

/-- The mousedown listener (lines 703-708): button 0 with pointer lock
active shoots one paintball onto the `paintballs` array; anything else
leaves it unchanged. -/
def mousedown (button : ℕ) (isPointerLocked : Bool) (playerPos camDir color : Vec3)
    (paintballs : List Paintball) : List Paintball :=
  if button = 0 ∧ isPointerLocked = true then
    paintballs ++ [shootPaintball playerPos camDir color]
  else paintballs

/-- The per-target body of the target loop in `update` (lines 876-912):
drift by velocity * delta, advance the oscillation phase and add
sin(oscillation * 2) * 0.5 * delta to y, negate the velocity when the
distance from the origin exceeds maxDist = 50 (embedded as
2500 < normSq), and when y < 2 clamp y to 2 and set velocity.y to its
absolute value.  The emissive pulsing and the lookAt(camera) rotation are
rendering-only and omitted. -/
def targetStep (env : Env) (delta : ℚ) (t : Target) : Target :=
  let pos1 := t.pos + delta • t.vel
  let osc := t.oscillation + delta
  let pos2 : Vec3 := ⟨pos1.x, pos1.y + env.sinF (osc * 2) * (1/2) * delta, pos1.z⟩
  let vel1 := if 2500 < normSq pos2 then (-1 : ℚ) • t.vel else t.vel
  if pos2.y < 2 then
    { t with pos := ⟨pos2.x, 2, pos2.z⟩, vel := ⟨vel1.x, |vel1.y|, vel1.z⟩, oscillation := osc }
  else
    { t with pos := pos2, vel := vel1, oscillation := osc }

/-- Whether a paintball at `p` hits target `t`:
`p.distanceTo(t.pos) < t.hitRadius`, embedded on squares. -/
def hitBy (p : Vec3) (t : Target) : Bool :=
  distSq p t.pos < t.hitRadius * t.hitRadius

/-- The target-collision scan of the paintball loop (lines 931-960): j runs
from the last index down to 0 and breaks at the first hit, so the hit is
the hit target of largest index.  Returns that index with the target. -/
def findHitIdx (p : Vec3) (ts : List Target) : Option (ℕ × Target) :=
  ts.enum.reverse.find? (fun it => hitBy p it.2)

/-- The part of the game state the paintball loop mutates besides the
`paintballs` array itself: the score, the target list, the splatter list
and the Math.random() cursor. -/
structure WorldSub where
  targets : List Target
  splatters : List Splatter
  score : ℚ
  rngK : ℕ
deriving Repr

/-- The body of the paintball loop of `update` for one paintball
(lines 915-991): decrement life and drop the ball if life <= 0; otherwise
move it by velocity * delta from `oldPos`; scan the targets (from the top
index down) and on a hit add the score, spawn the explosion particles,
replace the hit target by a fresh one and drop the ball; otherwise raycast
from `oldPos` along the normalized velocity with far = the distance moved
(the segment to the new position) and on an intersection add a decal at
the nearest hit and drop the ball; otherwise drop the ball if it fell
below the ground plane, else keep it.  Returns (the surviving ball if
any, the explosion particles pushed onto the array, the mutated world
state); scene removal, geometry disposal, the crosshair hit feedback and
the score display are rendering-only.  The randoms consumed on a target
hit are 60 for the explosion then 7 for the replacement target; a decal
consumes 2 state-relevant randoms. -/
def stepPaintball (env : Env) (delta : ℚ) (b : Paintball) (w : WorldSub) :
    Option Paintball × List Paintball × WorldSub :=
  if b.life - delta ≤ 0 then
    (none, [], w)
  else
    match findHitIdx (b.pos + delta • b.vel) w.targets with
    | some (j, t) =>
        (none, createExplosion env w.rngK t.pos b.color,
          { targets := w.targets.eraseIdx j ++ [createTarget env (w.rngK + 60)]
            splatters := w.splatters
            score := w.score + t.score
            rngK := w.rngK + 67 })
    | none =>
        match env.intersect b.pos (b.pos + delta • b.vel) with
        | hit :: _ =>
            (none, [],
              { targets := w.targets
                splatters := addDecal hit b.color (env.rng w.rngK) (env.rng (w.rngK + 1))
                               w.splatters
                score := w.score
                rngK := w.rngK + 2 })
        | [] =>
            if (b.pos + delta • b.vel).y < 0 then (none, [], w)
            else (some { b with pos := b.pos + delta • b.vel, life := b.life - delta }, [], w)

/-- The paintball loop (lines 915-991) runs i from the top index down to 0,
so the balls later in the array are processed first; splices remove the
current ball only and pushes append past the loop's range, so each
original ball is processed exactly once.  Returns (survivors in original
order, particles in push order, final world state). -/
def runPaintballs (env : Env) (delta : ℚ) :
    List Paintball → WorldSub → List Paintball × List Paintball × WorldSub
  | [], w => ([], [], w)
  | b :: rest, w =>
      ((stepPaintball env delta b (runPaintballs env delta rest w).2.2).1.toList ++
         (runPaintballs env delta rest w).1,
       (runPaintballs env delta rest w).2.1 ++
         (stepPaintball env delta b (runPaintballs env delta rest w).2.2).2.1,
       (stepPaintball env delta b (runPaintballs env delta rest w).2.2).2.2)

/-- The final contents of the `paintballs` array after the loop: the
surviving balls in their original order followed by the explosion
particles in the order they were pushed. -/
def updatePaintballs (env : Env) (delta : ℚ) (ps : List Paintball) (w : WorldSub) :
    List Paintball × WorldSub :=
  ((runPaintballs env delta ps w).1 ++ (runPaintballs env delta ps w).2.1,
   (runPaintballs env delta ps w).2.2)

/-- The whole mutable game state that `update` and the event listeners
touch (camera pose, fog, pixel ratio and all DOM state excepted). -/
structure GameState where
  player : Player
  mouseDeltaX : ℚ
  mouseDeltaY : ℚ
  isPointerLocked : Bool
  keys : Keys
  targets : List Target
  paintballs : List Paintball
  splatters : List Splatter
  score : ℚ
  rngK : ℕ

/-- The mousemove listener (lines 390-395): accumulate movementX/movementY
into the mouse deltas only while pointer lock is engaged. -/
def mousemove (movementX movementY : ℚ) (s : GameState) : GameState :=
  if s.isPointerLocked then
    { s with mouseDeltaX := s.mouseDeltaX + movementX,
             mouseDeltaY := s.mouseDeltaY + movementY }
  else s

/-- sensitivity = 0.002 (line 787). -/
def sensitivity : ℚ := 1/500

/-- The mouse-look section of `update` (lines 786-793): only while pointer
lock is engaged, subtract the accumulated deltas times the sensitivity
from yaw and pitch, clamp the pitch to
[-PI/2 + 0.1, PI/2 - 0.1], and zero the deltas. -/
def mouseLookStep (s : GameState) : GameState :=
  if s.isPointerLocked then
    let yaw1 := s.player.yaw - s.mouseDeltaX * sensitivity
    let pitchRaw := s.player.pitch - s.mouseDeltaY * sensitivity
    let pitch1 := max (-(mathPI / 2) + 1/10) (min (mathPI / 2 - 1/10) pitchRaw)
    { s with player := { s.player with yaw := yaw1, pitch := pitch1 },
             mouseDeltaX := 0, mouseDeltaY := 0 }
  else s

/-- One frame of `update(delta)` (lines 782-1013) on the game state:
mouse look, player movement, the target drift loop, then the paintball
loop.  The animation mixer, the player mesh rotation, the gun recoil
animation and the first-person camera placement at the end are
rendering-only and omitted. -/
def update (env : Env) (delta : ℚ) (s0 : GameState) : GameState :=
  let s := mouseLookStep s0
  let pl := movementStep env s.keys delta s.player
  let targets1 := s.targets.map (targetStep env delta)
  let r := updatePaintballs env delta s.paintballs
             { targets := targets1, splatters := s.splatters, score := s.score, rngK := s.rngK }
  { s with player := pl, targets := r.2.targets, paintballs := r.1,
           splatters := r.2.splatters, score := r.2.score, rngK := r.2.rngK }

/-- A concrete instantiation of the library oracles (all zero, no raycast
hits), used to evaluate the embedding at concrete states. -/
def trivEnv : Env :=
  { sinF := fun _ => 0, cosF := fun _ => 0, sqrtF := fun _ => 0,
    rng := fun _ => 0, intersect := fun _ _ => [] }

/-- A concrete instantiation of the library oracles whose raycast always
reports one hit on the ground mesh at the origin. -/
def hitEnv : Env :=
  { sinF := fun _ => 0, cosF := fun _ => 0, sqrtF := fun _ => 0,
    rng := fun _ => 0,
    intersect := fun _ _ => [{ point := ⟨0, 0, 0⟩, normal := ⟨0, 1, 0⟩, objId := 0 }] }

/-- The keyboard state with no key held. -/
def noKeys : Keys :=
  { keyW := false, keyA := false, keyS := false, keyD := false, space := false }

/-- A concrete game state with pointer lock disengaged and pending mouse
deltas, used to evaluate the embedding at a concrete state. -/
def idleState : GameState :=
  { player := { pos := ⟨0, 0, 0⟩, vel := ⟨0, 0, 0⟩, onGround := false, yaw := 0, pitch := 0 }
    mouseDeltaX := 5
    mouseDeltaY := 7
    isPointerLocked := false
    keys := noKeys
    targets := []
    paintballs := []
    splatters := []
    score := 0
    rngK := 0 }

/-- The two focus modes (line 529): the string state 'focused' / 'broad'. -/
inductive FocusMode
  | focused
  | broad
deriving DecidableEq, Repr, Inhabited

/-- One entry of the `focusModes` table (lines 530-543). -/
structure ModeParams where
  fov : ℚ
  fogDensity : ℚ
  vignette : String
  label : String
deriving DecidableEq, Repr, Inhabited

/-- The `focusModes` table (lines 530-543): focused has fov 45, broad has
fov 90. -/
def focusModes : FocusMode → ModeParams
  | .focused => { fov := 45, fogDensity := 1/100, vignette := "focused", label := "FOCUSED" }
  | .broad => { fov := 90, fogDensity := 3/100, vignette := "broad", label := "BROAD" }

/-- The mode-dependent state `toggleFocusMode` writes: the mode itself, the
UI label and vignette class, the target of the FOV animation, the fog
near/far planes and the renderer pixel ratio. -/
structure FocusState where
  mode : FocusMode
  label : String
  vignette : String
  targetFov : ℚ
  fogNear : ℚ
  fogFar : ℚ
  pixelRatio : ℚ
deriving DecidableEq, Repr

/-- `toggleFocusMode` (lines 560-586): flip the mode, look up its params,
update the label and vignette, start the FOV animation towards the mode's
fov, set the fog planes (20/100 focused, 10/60 broad) and the pixel ratio
(devicePixelRatio, times 0.7 in broad mode).  The eased FOV animation
itself is rendering-only; its target is recorded. -/
def toggleFocusMode (devicePixelRatio : ℚ) (st : FocusState) : FocusState :=
  let m := if st.mode = FocusMode.focused then FocusMode.broad else FocusMode.focused
  let p := focusModes m
  { mode := m
    label := p.label
    vignette := p.vignette
    targetFov := p.fov
    fogNear := if m = FocusMode.focused then 20 else 10
    fogFar := if m = FocusMode.focused then 100 else 60
    pixelRatio := if m = FocusMode.focused then devicePixelRatio
                  else devicePixelRatio * (7/10) }

/-! Theorems.  The helper lemmas come first, then one theorem per verified
claim about the embedded program. -/

/-- Vector addition acts componentwise. -/
@[simp]
theorem Vec3.add_def (a b : Vec3) : a + b = ⟨a.x + b.x, a.y + b.y, a.z + b.z⟩ := rfl

/-- Scalar multiplication acts componentwise. -/
@[simp]
theorem Vec3.smul_def (c : ℚ) (v : Vec3) : c • v = ⟨c * v.x, c * v.y, c * v.z⟩ := rfl

/-- Vector subtraction acts componentwise. -/
@[simp]
theorem Vec3.sub_def (a b : Vec3) : a - b = ⟨a.x - b.x, a.y - b.y, a.z - b.z⟩ := rfl

/-- The WASD section changes only the horizontal velocity: position,
vertical velocity and the onGround flag pass through. -/
theorem horizontalStep_vert (env : Env) (k : Keys) (p : Player) :
    (horizontalStep env k p).pos = p.pos ∧
    (horizontalStep env k p).vel.y = p.vel.y ∧
    (horizontalStep env k p).onGround = p.onGround := by
  unfold horizontalStep
  dsimp only
  split_ifs <;> exact ⟨rfl, rfl, rfl⟩

/-- The jump section: position and horizontal velocity pass through, the
vertical velocity becomes 12 exactly on a grounded jump, and onGround is
cleared by the jump. -/
theorem jumpStep_char (k : Keys) (p : Player) :
    (jumpStep k p).pos = p.pos ∧
    (jumpStep k p).vel.x = p.vel.x ∧
    (jumpStep k p).vel.z = p.vel.z ∧
    (jumpStep k p).vel.y = (if k.space && p.onGround then jumpSpeed else p.vel.y) ∧
    (jumpStep k p).onGround = (!(k.space && p.onGround) && p.onGround) := by
  unfold jumpStep
  cases hs : k.space <;> cases hg : p.onGround <;> simp [hs, hg]

/-- Full characterization of the vertical dynamics of `movementStep`:
writing vy for the vertical velocity after an optional jump and after
gravity, and y1 for the integrated vertical position, the step clamps to
the ground plane exactly when y1 < 0, and the horizontal position is
advanced by the horizontal velocity times delta. -/
theorem movementStep_vert_char (env : Env) (k : Keys) (delta : ℚ) (p : Player) :
    (movementStep env k delta p).vel.y =
      (if p.pos.y + ((if k.space && p.onGround then jumpSpeed else p.vel.y) +
          gravity * delta) * delta < 0
       then 0
       else (if k.space && p.onGround then jumpSpeed else p.vel.y) + gravity * delta) ∧
    (movementStep env k delta p).pos.y =
      (if p.pos.y + ((if k.space && p.onGround then jumpSpeed else p.vel.y) +
          gravity * delta) * delta < 0
       then 0
       else p.pos.y + ((if k.space && p.onGround then jumpSpeed else p.vel.y) +
          gravity * delta) * delta) ∧
    (movementStep env k delta p).onGround =
      (if p.pos.y + ((if k.space && p.onGround then jumpSpeed else p.vel.y) +
          gravity * delta) * delta < 0
       then true
       else (!(k.space && p.onGround) && p.onGround)) ∧
    (movementStep env k delta p).pos.x =
      p.pos.x + (movementStep env k delta p).vel.x * delta ∧
    (movementStep env k delta p).pos.z =
      p.pos.z + (movementStep env k delta p).vel.z * delta ∧
    gravity = -30 := by
  obtain ⟨h1, h2, h3⟩ := horizontalStep_vert env k p
  obtain ⟨j1, j2, j3, j4, j5⟩ := jumpStep_char k (horizontalStep env k p)
  rw [h3] at j4 j5
  rw [h2] at j4
  rw [h1] at j1
  unfold movementStep
  dsimp only
  rw [j1, j4, j5]
  split_ifs with hc <;> simp [j1, j4, gravity]

/-- C3 (confirmed): gravity is applied every frame — the vertical velocity
used for integration is the (possibly jump-reset) previous vertical
velocity decreased by 30 * delta (gravity = -30), the position advances by
velocity * delta in every component, and exactly when the integrated y
falls below 0 the position is clamped to y = 0, the vertical velocity is
zeroed and onGround is set. -/
theorem gravity_applied_every_frame (env : Env) (k : Keys) (delta : ℚ) (p : Player) :
    (movementStep env k delta p).vel.y =
      (if p.pos.y + ((if k.space && p.onGround then jumpSpeed else p.vel.y) +
          gravity * delta) * delta < 0
       then 0
       else (if k.space && p.onGround then jumpSpeed else p.vel.y) + gravity * delta) ∧
    (movementStep env k delta p).pos.y =
      (if p.pos.y + ((if k.space && p.onGround then jumpSpeed else p.vel.y) +
          gravity * delta) * delta < 0
       then 0
       else p.pos.y + ((if k.space && p.onGround then jumpSpeed else p.vel.y) +
          gravity * delta) * delta) ∧
    (movementStep env k delta p).onGround =
      (if p.pos.y + ((if k.space && p.onGround then jumpSpeed else p.vel.y) +
          gravity * delta) * delta < 0
       then true
       else (!(k.space && p.onGround) && p.onGround)) ∧
    (movementStep env k delta p).pos.x =
      p.pos.x + (movementStep env k delta p).vel.x * delta ∧
    (movementStep env k delta p).pos.z =
      p.pos.z + (movementStep env k delta p).vel.z * delta ∧
    gravity = -30 :=
  movementStep_vert_char env k delta p

/-- C1 (counterexample): a player standing exactly on the lowest possible
rooftop (the building generator only makes buildings of height at least 6)
with zero velocity is not supported there: one movement update with
delta = 0.1 moves the player down through the roof to y = 5.7 and leaves
onGround false — rooftop, stair and bridge meshes are never consulted by
the movement update. -/
theorem rooftop_does_not_support_player :
    (movementStep trivEnv noKeys (1/10)
        { pos := ⟨0, 6, 0⟩, vel := ⟨0, 0, 0⟩, onGround := false, yaw := 0, pitch := 0 }).pos.y
      = 57/10 ∧
    (movementStep trivEnv noKeys (1/10)
        { pos := ⟨0, 6, 0⟩, vel := ⟨0, 0, 0⟩, onGround := false, yaw := 0, pitch := 0 }).pos.y
      < 6 ∧
    (movementStep trivEnv noKeys (1/10)
        { pos := ⟨0, 6, 0⟩, vel := ⟨0, 0, 0⟩, onGround := false, yaw := 0, pitch := 0 }).onGround
      = false := by
  refine ⟨?_, ?_, ?_⟩ <;>
    norm_num [movementStep, jumpStep, horizontalStep, trivEnv, noKeys, gravity, jumpSpeed]

/-- C1 (amended): in the per-frame movement update the player is
vertically supported only by the ground plane at y = 0: the vertical
position is always either the free-fall integration or exactly 0, and the
update can mark a previously airborne player onGround only by clamping
them to y = 0 — building rooftops, stair steps and bridge surfaces never
support the player (those meshes are raycast targets for paintballs
only). -/
theorem player_vertically_supported_only_by_ground (env : Env) (k : Keys) (delta : ℚ)
    (p : Player) :
    ((movementStep env k delta p).pos.y = 0 ∨
     (movementStep env k delta p).pos.y =
       p.pos.y + ((if k.space && p.onGround then jumpSpeed else p.vel.y) +
         gravity * delta) * delta) ∧
    ((movementStep env k delta p).onGround = true →
      p.onGround = true ∨ (movementStep env k delta p).pos.y = 0) := by
  obtain ⟨hv, hy, hg, _, _, _⟩ := movementStep_vert_char env k delta p
  by_cases hc : p.pos.y + ((if k.space && p.onGround then jumpSpeed else p.vel.y) +
      gravity * delta) * delta < 0
  · rw [if_pos hc] at hy hg
    exact ⟨Or.inl hy, fun _ => Or.inr hy⟩
  · rw [if_neg hc] at hy hg
    refine ⟨Or.inr hy, fun hgr => ?_⟩
    rw [hgr] at hg
    cases hs : k.space && p.onGround
    · rw [hs] at hg
      exact Or.inl (by simpa using hg.symm)
    · simp at hs
      exact Or.inl hs.2

/-- Witness for the amended C1 theorem at a concrete grounded state. -/
theorem player_vertically_supported_only_by_ground_witness :
    ((movementStep trivEnv noKeys 1
        { pos := ⟨0, 0, 0⟩, vel := ⟨0, 0, 0⟩, onGround := true, yaw := 0, pitch := 0 }).pos.y = 0 ∨
     (movementStep trivEnv noKeys 1
        { pos := ⟨0, 0, 0⟩, vel := ⟨0, 0, 0⟩, onGround := true, yaw := 0, pitch := 0 }).pos.y =
       (0 : ℚ) + ((if noKeys.space && true then jumpSpeed else (0 : ℚ)) + gravity * 1) * 1) ∧
    ((movementStep trivEnv noKeys 1
        { pos := ⟨0, 0, 0⟩, vel := ⟨0, 0, 0⟩, onGround := true, yaw := 0, pitch := 0 }).onGround = true →
      (true : Bool) = true ∨
      (movementStep trivEnv noKeys 1
        { pos := ⟨0, 0, 0⟩, vel := ⟨0, 0, 0⟩, onGround := true, yaw := 0, pitch := 0 }).pos.y = 0) :=
  player_vertically_supported_only_by_ground trivEnv noKeys 1
    { pos := ⟨0, 0, 0⟩, vel := ⟨0, 0, 0⟩, onGround := true, yaw := 0, pitch := 0 }

/-- C5 (confirmed): each frame a target's position advances by its drift
velocity scaled by delta plus the sinusoidal vertical oscillation term
sin((oscillation + delta) * 2) * 0.5 * delta; the drift velocity is
negated exactly when the moved position's distance from the origin
exceeds 50 (squared comparison 2500 < normSq); and exactly when the moved
y is below 2 the y is reset to 2 and the vertical drift component is
replaced by its absolute value — so after every step the target sits at
y at least 2. -/
theorem target_drift_oscillation_and_bounds (env : Env) (delta : ℚ) (t : Target) :
    (targetStep env delta t).oscillation = t.oscillation + delta ∧
    (targetStep env delta t).hitRadius = t.hitRadius ∧
    (targetStep env delta t).score = t.score ∧
    2 ≤ (targetStep env delta t).pos.y ∧
    (let moved : Vec3 :=
      ⟨t.pos.x + delta * t.vel.x,
       t.pos.y + delta * t.vel.y + env.sinF ((t.oscillation + delta) * 2) * (1/2) * delta,
       t.pos.z + delta * t.vel.z⟩
     let bounced : Vec3 := if 2500 < normSq moved then (-1 : ℚ) • t.vel else t.vel
     (targetStep env delta t).pos =
       (if moved.y < 2 then ⟨moved.x, 2, moved.z⟩ else moved) ∧
     (targetStep env delta t).vel =
       (if moved.y < 2 then ⟨bounced.x, |bounced.y|, bounced.z⟩ else bounced)) := by
  unfold targetStep
  simp only [Vec3.add_def, Vec3.smul_def]
  split_ifs <;> simp_all

/-- C6 (confirmed): the mousedown listener spawns exactly one paintball on
a left-button press while pointer lock is active and nothing otherwise;
the spawned ball starts at the player position raised by
playerHeight * 0.7 and advanced 1.0 along the camera direction, and its
velocity is the camera direction scaled by 40 (so its squared speed is
40^2 times the squared norm of the direction, i.e. speed 40 for the
normalized camera direction). -/
theorem left_click_shoots_iff_pointer_locked (button : ℕ) (locked : Bool)
    (playerPos camDir color : Vec3) (ps : List Paintball) :
    mousedown button locked playerPos camDir color ps =
      (if button = 0 ∧ locked = true then ps ++ [shootPaintball playerPos camDir color]
       else ps) ∧
    (mousedown 0 true playerPos camDir color ps).length = ps.length + 1 ∧
    mousedown button false playerPos camDir color ps = ps ∧
    (shootPaintball playerPos camDir color).pos =
      playerPos + (⟨0, playerHeight * (7/10), 0⟩ : Vec3) + (1 : ℚ) • camDir ∧
    (shootPaintball playerPos camDir color).vel = (40 : ℚ) • camDir ∧
    normSq (shootPaintball playerPos camDir color).vel = 40 * 40 * normSq camDir ∧
    (shootPaintball playerPos camDir color).life = 3 := by
  refine ⟨rfl, ?_, ?_, rfl, rfl, ?_, rfl⟩
  · simp [mousedown]
  · simp [mousedown]
  · simp only [shootPaintball, Vec3.smul_def, normSq]
    ring

/-- C7 (confirmed): toggleFocusMode maps focused to broad and broad to
focused (whose mode parameters carry fov 45 and 90 respectively), two
toggles restore the original mode together with its mode-derived
parameters, and on the states the toggle produces it is an involution. -/
theorem focus_mode_toggle_involution (dpr : ℚ) (st : FocusState) :
    (toggleFocusMode dpr st).mode =
      (if st.mode = FocusMode.focused then FocusMode.broad else FocusMode.focused) ∧
    (toggleFocusMode dpr (toggleFocusMode dpr st)).mode = st.mode ∧
    (toggleFocusMode dpr (toggleFocusMode dpr st)).targetFov = (focusModes st.mode).fov ∧
    (toggleFocusMode dpr (toggleFocusMode dpr st)).label = (focusModes st.mode).label ∧
    (toggleFocusMode dpr (toggleFocusMode dpr st)).vignette = (focusModes st.mode).vignette ∧
    (focusModes FocusMode.focused).fov = 45 ∧
    (focusModes FocusMode.broad).fov = 90 ∧
    toggleFocusMode dpr (toggleFocusMode dpr (toggleFocusMode dpr st)) =
      toggleFocusMode dpr st := by
  cases hm : st.mode <;> simp [toggleFocusMode, focusModes, hm]

/-- C8 (confirmed): with pointer lock disengaged, a mousemove event records
nothing (the handler is a no-op) and the mouse-look section of update
applies nothing (yaw and pitch are untouched and the whole section is a
no-op), so the view direction depends only on input received while
locked. -/
theorem mouse_look_gated_on_pointer_lock (mx my : ℚ) (s : GameState)
    (h : s.isPointerLocked = false) :
    mousemove mx my s = s ∧
    (mouseLookStep s).player.yaw = s.player.yaw ∧
    (mouseLookStep s).player.pitch = s.player.pitch ∧
    mouseLookStep s = s := by
  rw [mousemove, mouseLookStep]
  simp [h]

/-- Witness for the mouse-look gating at a concrete unlocked state with
pending deltas. -/
theorem mouse_look_gated_on_pointer_lock_witness :
    mousemove 3 4 idleState = idleState ∧
    (mouseLookStep idleState).player.yaw = idleState.player.yaw ∧
    (mouseLookStep idleState).player.pitch = idleState.player.pitch ∧
    mouseLookStep idleState = idleState :=
  mouse_look_gated_on_pointer_lock 3 4 idleState rfl

/-- C10 (confirmed): starting from any splatter list of length at most
200, one addDecal call pushes one splatter (length at most 201 before
trimming), trims back to at most 200, and when the list was full the trim
removes exactly the oldest entry (the front) while the new splatter sits
at the back. -/
theorem splatter_list_capped_at_200 (hit : Hit) (color : Vec3) (r1 r2 : ℚ)
    (sp : List Splatter) (h : sp.length ≤ 200) :
    (sp ++ [newSplatter hit color r1 r2]).length ≤ 201 ∧
    (addDecal hit color r1 r2 sp).length ≤ 200 ∧
    (sp.length = 200 →
      addDecal hit color r1 r2 sp = sp.drop 1 ++ [newSplatter hit color r1 r2]) := by
  unfold addDecal
  dsimp only
  refine ⟨?_, ?_, ?_⟩
  · simp
    omega
  · split_ifs with hc <;> simp_all
  · intro h200
    rw [if_pos (by simp [h200])]
    rw [List.drop_append_of_le_length (by omega)]

/-- Witness for the splatter cap at a concrete full list of 200
splatters. -/
theorem splatter_list_capped_at_200_witness :
    (addDecal default ⟨0, 0, 0⟩ 0 0 (List.replicate 200 (default : Splatter))).length ≤ 200 ∧
    addDecal default ⟨0, 0, 0⟩ 0 0 (List.replicate 200 (default : Splatter)) =
      (List.replicate 200 (default : Splatter)).drop 1 ++
        [newSplatter default ⟨0, 0, 0⟩ 0 0] := by
  have h := splatter_list_capped_at_200 default ⟨0, 0, 0⟩ 0 0
    (List.replicate 200 (default : Splatter))
    (by rw [List.length_replicate])
  exact ⟨h.2.1, h.2.2 (by rw [List.length_replicate])⟩

/-- The index the target-collision scan returns is a valid index of the
target list. -/
theorem findHitIdx_lt_length (p : Vec3) (ts : List Target) (j : ℕ) (t : Target)
    (h : findHitIdx p ts = some (j, t)) : j < ts.length := by
  unfold findHitIdx at h
  have hmem := List.mem_of_find?_eq_some h
  rw [List.mem_reverse] at hmem
  have hget := List.mk_mem_enum_iff_get?.mp hmem
  have := List.get?_eq_some.mp hget
  exact this.1

/-- The mouse-look section touches only yaw, pitch and the mouse deltas. -/
theorem mouseLookStep_frame (s : GameState) :
    (mouseLookStep s).targets = s.targets ∧
    (mouseLookStep s).paintballs = s.paintballs ∧
    (mouseLookStep s).splatters = s.splatters ∧
    (mouseLookStep s).score = s.score ∧
    (mouseLookStep s).rngK = s.rngK ∧
    (mouseLookStep s).keys = s.keys := by
  unfold mouseLookStep
  split_ifs <;> exact ⟨rfl, rfl, rfl, rfl, rfl, rfl⟩

/-- One paintball step never changes the number of targets: a target hit
erases the hit index and pushes exactly one replacement. -/
theorem stepPaintball_targets_length (env : Env) (delta : ℚ) (b : Paintball)
    (w : WorldSub) :
    (stepPaintball env delta b w).2.2.targets.length = w.targets.length := by
  unfold stepPaintball
  by_cases hl : b.life - delta ≤ 0
  · rw [if_pos hl]
  · rw [if_neg hl]
    split
    · next j t heq =>
        have hj := findHitIdx_lt_length _ _ _ _ heq
        have hlen := List.length_eraseIdx_add_one hj
        simp only [List.length_append, List.length_cons, List.length_nil]
        omega
    · next heq =>
        split
        · rfl
        · split_ifs <;> rfl

/-- A surviving paintball has positive remaining life. -/
theorem stepPaintball_surv_life (env : Env) (delta : ℚ) (b : Paintball) (w : WorldSub)
    (b' : Paintball) (h : (stepPaintball env delta b w).1 = some b') : 0 < b'.life := by
  unfold stepPaintball at h
  by_cases hl : b.life - delta ≤ 0
  · rw [if_pos hl] at h
    exact Option.noConfusion h
  · rw [if_neg hl] at h
    split at h
    · exact Option.noConfusion h
    · split at h
      · exact Option.noConfusion h
      · split_ifs at h
        · have h2 : some (Paintball.mk (b.pos + delta • b.vel) b.vel b.color
              (b.life - delta)) = some b' := h
          injection h2 with h3
          rw [← h3]
          push_neg at hl
          simpa using hl

/-- A surviving paintball's life is exactly the old life decremented by
delta. -/
theorem stepPaintball_surv_life_eq (env : Env) (delta : ℚ) (b : Paintball) (w : WorldSub)
    (b' : Paintball) (h : (stepPaintball env delta b w).1 = some b') :
    b'.life = b.life - delta := by
  unfold stepPaintball at h
  by_cases hl : b.life - delta ≤ 0
  · rw [if_pos hl] at h
    exact Option.noConfusion h
  · rw [if_neg hl] at h
    split at h
    · exact Option.noConfusion h
    · split at h
      · exact Option.noConfusion h
      · split_ifs at h
        · have h2 : some (Paintball.mk (b.pos + delta • b.vel) b.vel b.color
              (b.life - delta)) = some b' := h
          injection h2 with h3
          rw [← h3]

/-- All explosion particles are created with life 0.5. -/
theorem createExplosion_life (env : Env) (k : ℕ) (position color : Vec3) :
    ∀ q ∈ createExplosion env k position color, q.life = 1/2 := by
  intro q hq
  unfold createExplosion at hq
  obtain ⟨i, _, rfl⟩ := List.mem_map.mp hq
  rfl

/-- All particles a paintball step pushes have positive life. -/
theorem stepPaintball_parts_life (env : Env) (delta : ℚ) (b : Paintball) (w : WorldSub) :
    ∀ q ∈ (stepPaintball env delta b w).2.1, 0 < q.life := by
  intro q hq
  unfold stepPaintball at hq
  by_cases hl : b.life - delta ≤ 0
  · rw [if_pos hl] at hq
    exact absurd hq (List.not_mem_nil q)
  · rw [if_neg hl] at hq
    split at hq
    · next j t heq =>
        dsimp only at hq
        have := createExplosion_life env w.rngK t.pos b.color q hq
        rw [this]
        norm_num
    · split at hq
      · exact absurd hq (List.not_mem_nil q)
      · split_ifs at hq <;> exact absurd hq (List.not_mem_nil q)

/-- Over a whole paintball pass every kept ball — survivor or pushed
particle — has positive life, and the target count is preserved. -/
theorem runPaintballs_inv (env : Env) (delta : ℚ) (ps : List Paintball) (w : WorldSub) :
    (∀ b' ∈ (runPaintballs env delta ps w).1, 0 < b'.life) ∧
    (∀ b' ∈ (runPaintballs env delta ps w).2.1, 0 < b'.life) ∧
    (runPaintballs env delta ps w).2.2.targets.length = w.targets.length := by
  induction ps generalizing w with
  | nil => exact ⟨by simp [runPaintballs], by simp [runPaintballs], rfl⟩
  | cons b rest ih =>
      obtain ⟨ih1, ih2, ih3⟩ := ih w
      refine ⟨?_, ?_, ?_⟩
      · intro b' hb'
        rw [runPaintballs] at hb'
        dsimp only at hb'
        rcases List.mem_append.mp hb' with hleft | hright
        · rcases Option.mem_toList.mp hleft with hsome
          exact stepPaintball_surv_life env delta b _ b' hsome
        · exact ih1 b' hright
      · intro b' hb'
        rw [runPaintballs] at hb'
        dsimp only at hb'
        rcases List.mem_append.mp hb' with hleft | hright
        · exact ih2 b' hleft
        · exact stepPaintball_parts_life env delta b _ b' hright
      · rw [runPaintballs]
        dsimp only
        rw [stepPaintball_targets_length]
        exact ih3

/-- C2 (confirmed): for a paintball that survives its life check and hits
no target this frame, the step raycasts exactly from the pre-move
position along the velocity direction with range the distance moved (the
segment from the old to the new position, against the building meshes and
the ground); when the raycast reports intersections, a splatter decal is
added at the nearest hit (the head of the sorted hit list) and the
paintball is removed (no survivor), with nothing else changed. -/
theorem surviving_paintball_raycast_decal_and_removal (env : Env) (delta : ℚ)
    (b : Paintball) (w : WorldSub) (hit : Hit) (rest : List Hit)
    (hlife : ¬ b.life - delta ≤ 0)
    (hmiss : findHitIdx (b.pos + delta • b.vel) w.targets = none)
    (hray : env.intersect b.pos (b.pos + delta • b.vel) = hit :: rest) :
    stepPaintball env delta b w =
      (none, [],
        { targets := w.targets
          splatters := addDecal hit b.color (env.rng w.rngK) (env.rng (w.rngK + 1)) w.splatters
          score := w.score
          rngK := w.rngK + 2 }) := by
  unfold stepPaintball
  rw [if_neg hlife, hmiss, hray]

/-- Witness for the raycast behaviour: a concrete falling paintball over
an empty target list in the environment whose raycast reports one ground
hit. -/
theorem surviving_paintball_raycast_decal_and_removal_witness :
    stepPaintball hitEnv (1/10)
        { pos := ⟨0, 5, 0⟩, vel := ⟨0, -10, 0⟩, color := ⟨0, 0, 0⟩, life := 3 }
        { targets := [], splatters := [], score := 0, rngK := 0 } =
      (none, [],
        { targets := []
          splatters := addDecal { point := ⟨0, 0, 0⟩, normal := ⟨0, 1, 0⟩, objId := 0 }
                         ⟨0, 0, 0⟩ (hitEnv.rng 0) (hitEnv.rng 1) []
          score := 0
          rngK := 2 }) :=
  surviving_paintball_raycast_decal_and_removal hitEnv (1/10)
    { pos := ⟨0, 5, 0⟩, vel := ⟨0, -10, 0⟩, color := ⟨0, 0, 0⟩, life := 3 }
    { targets := [], splatters := [], score := 0, rngK := 0 }
    { point := ⟨0, 0, 0⟩, normal := ⟨0, 1, 0⟩, objId := 0 } []
    (by norm_num) rfl rfl

/-- C4 (confirmed): every fired paintball starts with life 3; each frame
decrements the life by delta (any surviving ball carries exactly
life - delta, stated through the Option of the survivor) and removes
every ball whose life has reached 0 or below, and explosion particles
enter with life 0.5, so after any update step every listed paintball has
strictly positive life. -/
theorem paintball_lifecycle (env : Env) (delta : ℚ) (s : GameState)
    (playerPos camDir color : Vec3) (b : Paintball) (w : WorldSub) :
    (shootPaintball playerPos camDir color).life = 3 ∧
    (((stepPaintball env delta b w).1.map Paintball.life).getD (b.life - delta) =
      b.life - delta) ∧
    ((update env delta s).paintballs.all (fun b => decide (0 < b.life)) = true) := by
  refine ⟨rfl, ?_, ?_⟩
  · cases hs : (stepPaintball env delta b w).1 with
    | none => rfl
    | some b2 =>
        exact stepPaintball_surv_life_eq env delta b w b2 hs
  unfold update updatePaintballs
  dsimp only
  rw [List.all_eq_true]
  intro b hb
  rcases List.mem_append.mp hb with hleft | hright
  · exact decide_eq_true ((runPaintballs_inv env delta _ _).1 b hleft)
  · exact decide_eq_true ((runPaintballs_inv env delta _ _).2.1 b hright)

/-- C9 (confirmed): 30 targets are spawned initially (MAX_TARGETS = 30),
the drift loop maps over the list without changing its length, and the
only removal — a paintball hit — immediately pushes one freshly created
replacement, so every update step preserves the target count. -/
theorem target_count_invariant (env : Env) (delta : ℚ) (s : GameState) :
    (update env delta s).targets.length = s.targets.length ∧
    (initTargets env).length = MAX_TARGETS ∧
    MAX_TARGETS = 30 := by
  refine ⟨?_, by simp [initTargets], rfl⟩
  unfold update updatePaintballs
  dsimp only
  rw [(runPaintballs_inv env delta _ _).2.2]
  rw [List.length_map]
  exact (mouseLookStep_frame s).1 ▸ rfl

end ShooterFocus
